import Mathlib

/-!
Shallow embedding of the identity, session, authorization and audit
subsystem of the warehouse administration backend, together with the
HTTP routes the verification targets: the OIDC callback handler, the
role-assignment route, the inventory/table mutation routes, and the
storage operations (`upsertUser`, `updateUserRole`, `createAuditLog`,
`getAuditLogs`) in both the database-backed and the in-memory storage
implementations.

Timestamps are modelled as natural numbers; external effects (the
identity provider's token and userinfo endpoints, the audit sink's
possible failure, generated row ids) are passed in explicitly.
-/

namespace WarehouseApp

/-- The closed role enumeration `userRoles = ["super_admin", "admin",
"manager", "viewer"]` from the shared schema. -/
inductive Role where
  | super_admin
  | admin
  | manager
  | viewer
deriving DecidableEq, Repr, BEq

/-- A row of the `users` table: id (external subject), optional profile
fields, role (defaults to viewer at creation), createdAt / updatedAt. -/
structure User where
  id : String
  email : Option String
  firstName : Option String
  lastName : Option String
  profileImageUrl : Option String
  role : Role
  createdAt : Nat
  updatedAt : Nat
deriving DecidableEq, Repr

/-- `UpsertUser`: the profile projection of a user handed to
`upsertUser` (id plus the four profile fields, no role, no timestamps). -/
structure UpsertUser where
  id : String
  email : Option String
  firstName : Option String
  lastName : Option String
  profileImageUrl : Option String
deriving DecidableEq, Repr

/-- The user store, modelled as a list of rows with unique ids. -/
abbrev UserStore := List User

/-- Row lookup by primary key, modelling `WHERE id = ...` / `Map.get`. -/
def findUser (store : UserStore) (id : String) : Option User :=
  store.find? (fun u => u.id == id)

/-- `DatabaseStorage.upsertUser`: if a row with the same id exists,
update only the four profile fields and `updatedAt`; otherwise insert a
new row with `role = viewer` and both timestamps defaulted to now.
Returns the returned row and the new store. -/
def dbUpsertUser (now : Nat) (u : UpsertUser) (store : UserStore) : User × UserStore :=
  match findUser store u.id with
  | some existing =>
      let updated : User :=
        { existing with
          email := u.email
          firstName := u.firstName
          lastName := u.lastName
          profileImageUrl := u.profileImageUrl
          updatedAt := now }
      (updated, store.map (fun x => if x.id == u.id then updated else x))
  | none =>
      let created : User :=
        { id := u.id
          email := u.email
          firstName := u.firstName
          lastName := u.lastName
          profileImageUrl := u.profileImageUrl
          role := Role.viewer
          createdAt := now
          updatedAt := now }
      (created, store ++ [created])

/-- `MemStorage.upsertUser`: builds the full user from the profile
fields, keeping the existing role and createdAt when present and
defaulting to viewer / now otherwise, then stores it under its id. -/
def memUpsertUser (now : Nat) (u : UpsertUser) (store : UserStore) : User × UserStore :=
  let existing := findUser store u.id
  let fullUser : User :=
    { id := u.id
      email := u.email
      firstName := u.firstName
      lastName := u.lastName
      profileImageUrl := u.profileImageUrl
      role := (existing.map (fun e => e.role)).getD Role.viewer
      createdAt := (existing.map (fun e => e.createdAt)).getD now
      updatedAt := now }
  match existing with
  | some _ => (fullUser, store.map (fun x => if x.id == u.id then fullUser else x))
  | none => (fullUser, store ++ [fullUser])

/-- `updateUserRoleSchema`: `z.enum(userRoles)` accepts exactly the four
role strings. -/
def parseRole (s : String) : Option Role :=
  if s = "super_admin" then some Role.super_admin
  else if s = "admin" then some Role.admin
  else if s = "manager" then some Role.manager
  else if s = "viewer" then some Role.viewer
  else none

/-- `DatabaseStorage.updateUserRole`: update role and `updatedAt` where
id matches; `none` models the thrown `Error("User not found")` when the
update returns no row. -/
def dbUpdateUserRole (now : Nat) (userId : String) (role : Role) (store : UserStore) :
    Option (User × UserStore) :=
  match findUser store userId with
  | none => none
  | some u =>
      let updated : User := { u with role := role, updatedAt := now }
      some (updated, store.map (fun x => if x.id == userId then updated else x))

/-- A row of the `audit_logs` table. -/
structure AuditLog where
  userId : Option String
  action : String
  endpoint : String
  method : String
  metadata : List (String × String)
  ipAddress : Option String
  timestamp : Nat
deriving DecidableEq, Repr

/-- Audit entries in insertion order (append-only table). -/
abbrev AuditStore := List AuditLog

/-- `storage.createAuditLog`: appends one row; the `fails` flag models
the underlying insert throwing, in which case nothing is appended and
the error propagates. -/
def createAuditLog (fails : Bool) (entry : AuditLog) (logs : AuditStore) :
    Except Unit AuditStore :=
  if fails then Except.error () else Except.ok (logs ++ [entry])

/-- `auditLog` from the auth middleware module: wraps `createAuditLog`
in try/catch; on failure the error is logged operationally and
swallowed, and the function returns normally. -/
def auditLog (fails : Bool) (entry : AuditLog) (logs : AuditStore) : AuditStore :=
  match createAuditLog fails entry logs with
  | Except.ok logs2 => logs2
  | Except.error _ => logs

/-- Insertion of one audit row into a list sorted by ascending
timestamp (helper for the SQL `ORDER BY timestamp`). -/
def insertByTimestampAsc (e : AuditLog) : AuditStore → AuditStore
  | [] => [e]
  | x :: xs =>
      if e.timestamp < x.timestamp then e :: x :: xs
      else x :: insertByTimestampAsc e xs

/-- Rows of the audit table sorted by ascending timestamp. -/
def sortByTimestampAsc : AuditStore → AuditStore
  | [] => []
  | x :: xs => insertByTimestampAsc x (sortByTimestampAsc xs)

/-- `DatabaseStorage.getAuditLogs(limit)`: `SELECT ... ORDER BY
timestamp LIMIT limit` — ascending order (no `desc()`), so it yields
the `limit` oldest rows, oldest first. -/
def dbGetAuditLogs (limit : Nat) (logs : AuditStore) : AuditStore :=
  (sortByTimestampAsc logs).take limit

/-- `MemStorage.getAuditLogs(limit)`: `this.auditLogs.slice(-limit)` —
the last `limit` entries in insertion (ascending) order; JavaScript
`slice(-0)` is `slice(0)`, the whole array. -/
def memGetAuditLogs (limit : Nat) (logs : AuditStore) : AuditStore :=
  if limit = 0 then logs else logs.drop (logs.length - limit)

/-- Modelled from the spec: `recentEntries(limit)` "returns the most
recent N entries ordered by timestamp descending". Used only to compare
the implementations against the specified behaviour. -/
def recentEntriesSpec (limit : Nat) (logs : AuditStore) : AuditStore :=
  ((sortByTimestampAsc logs).reverse).take limit

/-- Session data carried by the cookie-backed express session: the four
fields declared in the `express-session` SessionData augmentation. -/
structure Session where
  userId : Option String
  codeVerifier : Option String
  state : Option String
deriving DecidableEq, Repr

/-- JavaScript truthiness for an optional string: `undefined` and the
empty string are falsy. -/
def strTruthy : Option String → Bool
  | none => false
  | some s => s ≠ ""

/-- `(x as string) || null`: the handler coerces a falsy claim (absent
or empty) to null before storing it. -/
def jsOrNull : Option String → Option String
  | none => none
  | some s => if s = "" then none else some s

/-- Token set returned by the IdP token endpoint. -/
structure Tokens where
  access_token : String
  token_type : String
deriving DecidableEq, Repr

/-- User claims returned by the IdP userinfo endpoint. -/
structure UserClaims where
  sub : String
  email : Option String
  given_name : Option String
  family_name : Option String
  picture : Option String
deriving DecidableEq, Repr

/-- The external identity-provider world as the callback handler sees
it: the cached discovery config (which `getOIDCConfig` may fail to
obtain), the token endpoint consulted by `authorizationCodeGrant` with
the authorization code and the stored PKCE verifier, and the userinfo
endpoint consulted by `fetchUserInfo` with the obtained tokens. -/
structure IdpEnv where
  discovery : Except Unit Unit
  tokenEndpoint : String → String → Except Unit Tokens
  userinfoEndpoint : Tokens → Except Unit UserClaims

/-- `client.authorizationCodeGrant(config, url, { pkceCodeVerifier,
expectedState })`: the library validates that the `state` query
parameter of the callback URL equals `expectedState` and throws on a
mismatch; otherwise it performs the exchange against the token
endpoint. -/
def authorizationCodeGrant (env : IdpEnv) (code qstate verifier expectedState : String) :
    Except Unit Tokens :=
  if qstate = expectedState then env.tokenEndpoint code verifier
  else Except.error ()

/-- Query parameters of the callback request. -/
structure CallbackQuery where
  code : String
  qstate : String
deriving DecidableEq, Repr

/-- The profile the callback handler builds from the fetched claims
and hands to `storage.upsertUser`, with falsy claims coerced to null. -/
def claimsProfile (ui : UserClaims) : UpsertUser :=
  { id := ui.sub
    email := jsOrNull ui.email
    firstName := jsOrNull ui.given_name
    lastName := jsOrNull ui.family_name
    profileImageUrl := jsOrNull ui.picture }

/-- Result of one `GET /api/auth/callback` request: HTTP status (302 on
the success redirect), the session and user store afterwards, and
whether the token exchange was invoked. -/
structure CallbackResult where
  status : Nat
  sess : Session
  users : UserStore
  exchangeAttempted : Bool
deriving Repr

/-- The `GET /api/auth/callback` handler: obtains the OIDC config,
requires a truthy `codeVerifier` and `state` in the session (else 400
"Invalid session"), exchanges the code (the grant throws on a state
mismatch), fetches the userinfo, upserts the user via
`DatabaseStorage.upsertUser`, sets `session.userId`, deletes
`codeVerifier` and `state`, and redirects to `/`; every thrown error is
caught and answered with 500 "Authentication failed". -/
def callbackHandler (env : IdpEnv) (now : Nat) (sess : Session) (store : UserStore)
    (q : CallbackQuery) : CallbackResult :=
  match env.discovery with
  | Except.error _ => ⟨500, sess, store, false⟩
  | Except.ok _ =>
      if strTruthy sess.codeVerifier && strTruthy sess.state then
        let cv := sess.codeVerifier.getD ""
        let st := sess.state.getD ""
        match authorizationCodeGrant env q.code q.qstate cv st with
        | Except.error _ => ⟨500, sess, store, true⟩
        | Except.ok toks =>
            match env.userinfoEndpoint toks with
            | Except.error _ => ⟨500, sess, store, true⟩
            | Except.ok ui =>
                let (user, store2) := dbUpsertUser now (claimsProfile ui) store
                ⟨302, { userId := some user.id, codeVerifier := none, state := none },
                  store2, true⟩
      else ⟨400, sess, store, false⟩

/-- `isAuthenticated`: reads `session.userId` (falsy means 401) and
resolves the user row from storage (missing row means 401); on success
the resolved user is attached to the request as `req.user`. -/
def resolveActor (sess : Session) (users : UserStore) : Option User :=
  match sess.userId with
  | none => none
  | some uid => if uid = "" then none else findUser users uid

/-- `requireRole(...allowedRoles)`: membership of the resolved user's
role in the route's allow-set. -/
def roleAllowed (allowedRoles : List Role) (r : Role) : Bool :=
  allowedRoles.contains r

/-- Result of one `PATCH /api/users/:id/role` request: HTTP status, the
user store and audit store afterwards, and the JSON body (the updated
user) on 200. -/
structure RoleRouteResult where
  status : Nat
  users : UserStore
  logs : AuditStore
  body : Option User
deriving Repr

/-- The `PATCH /api/users/:id/role` route:
`isAuthenticated, requireRole("super_admin", "admin")`, then parse the
body with `updateUserRoleSchema` (a parse failure throws and is caught
as 400), refuse with 403 when the target role is `super_admin` but the
actor is not a `super_admin`, call `storage.updateUserRole` (its
"User not found" error is caught by the same catch-all as 400), record
an audit entry, and answer 200 with the updated user. -/
def patchUserRole (auditFails : Bool) (now : Nat) (sess : Session) (users : UserStore)
    (logs : AuditStore) (targetId : String) (bodyRole : String) (ip : Option String) :
    RoleRouteResult :=
  match resolveActor sess users with
  | none => ⟨401, users, logs, none⟩
  | some actor =>
      if roleAllowed [Role.super_admin, Role.admin] actor.role then
        match parseRole bodyRole with
        | none => ⟨400, users, logs, none⟩
        | some newRole =>
            if newRole = Role.super_admin ∧ actor.role ≠ Role.super_admin then
              ⟨403, users, logs, none⟩
            else
              match dbUpdateUserRole now targetId newRole users with
              | none => ⟨400, users, logs, none⟩
              | some (updated, users2) =>
                  let logs2 := auditLog auditFails
                    { userId := some actor.id
                      action := "UPDATE_USER_ROLE"
                      endpoint := "/api/users/" ++ targetId ++ "/role"
                      method := "PATCH"
                      metadata := [("userId", targetId), ("newRole", bodyRole)]
                      ipAddress := ip
                      timestamp := now } logs
                  ⟨200, users2, logs2, some updated⟩
      else ⟨403, users, logs, none⟩

/-- A row of the `inventory_items` table (the fields the POST route
touches). -/
structure InventoryItem where
  id : String
  warehouseId : String
  name : String
  sku : String
  quantity : Nat
  createdAt : Nat
  updatedAt : Nat
deriving DecidableEq, Repr

/-- Request body for `POST /api/inventory` after JSON decoding. -/
structure InsertInventoryItem where
  warehouseId : String
  name : String
  sku : String
  quantity : Nat
deriving DecidableEq, Repr

/-- `insertInventoryItemSchema` requires a non-empty name and a
non-empty SKU (quantity is a non-negative integer by type). -/
def inventoryBodyValid (body : InsertInventoryItem) : Bool :=
  body.name ≠ "" && body.sku ≠ ""

/-- A row of the `product_history` table. -/
structure ProductHistory where
  inventoryItemId : String
  actionType : String
  quantityChange : Int
  previousQuantity : Nat
  newQuantity : Nat
  userId : Option String
  notes : Option String
  timestamp : Nat
deriving DecidableEq, Repr

/-- Result of one `POST /api/inventory` request. -/
structure InventoryRouteResult where
  status : Nat
  items : List InventoryItem
  history : List ProductHistory
  logs : AuditStore
  body : Option InventoryItem
deriving Repr

/-- The `POST /api/inventory` route: `isAuthenticated,
requireRole("super_admin", "admin", "manager")`, parse the body (400 on
failure), create the item, append an initial "in" product-history row,
call `auditLog` (best-effort), and answer 201 with the created item. -/
def postInventory (auditFails : Bool) (newId : String) (now : Nat) (sess : Session)
    (users : UserStore) (items : List InventoryItem) (history : List ProductHistory)
    (logs : AuditStore) (body : InsertInventoryItem) (ip : Option String) :
    InventoryRouteResult :=
  match resolveActor sess users with
  | none => ⟨401, items, history, logs, none⟩
  | some actor =>
      if roleAllowed [Role.super_admin, Role.admin, Role.manager] actor.role then
        if inventoryBodyValid body then
          let item : InventoryItem :=
            { id := newId
              warehouseId := body.warehouseId
              name := body.name
              sku := body.sku
              quantity := body.quantity
              createdAt := now
              updatedAt := now }
          let history2 := history ++
            [{ inventoryItemId := item.id
               actionType := "in"
               quantityChange := (item.quantity : Int)
               previousQuantity := 0
               newQuantity := item.quantity
               userId := some actor.id
               notes := some "Initial inventory"
               timestamp := now }]
          let logs2 := auditLog auditFails
            { userId := some actor.id
              action := "CREATE_INVENTORY"
              endpoint := "/api/inventory"
              method := "POST"
              metadata := [("itemId", item.id), ("sku", item.sku)]
              ipAddress := ip
              timestamp := now } logs
          ⟨201, items ++ [item], history2, logs2, some item⟩
        else ⟨400, items, history, logs, none⟩
      else ⟨403, items, history, logs, none⟩

/-- A row of the `tables` table. -/
structure DataTable where
  id : String
  name : String
  description : Option String
  createdBy : Option String
  createdAt : Nat
deriving DecidableEq, Repr

/-- Request body for `POST /api/tables` after JSON decoding. -/
structure InsertTableBody where
  name : String
  description : Option String
deriving DecidableEq, Repr

/-- Result of one `POST /api/tables` or `DELETE /api/tables/:id`
request. -/
structure TableRouteResult where
  status : Nat
  tables : List DataTable
  logs : AuditStore
  body : Option DataTable
deriving Repr

/-- The `POST /api/tables` route: guarded by `isAuthenticated` only (no
`requireRole`); parses the body with `insertTableSchema` (non-empty
name), stamping `createdBy` with the caller's id, creates the table,
audits, and answers 201 with the created table. -/
def postTable (auditFails : Bool) (newId : String) (now : Nat) (sess : Session)
    (users : UserStore) (tables : List DataTable) (logs : AuditStore)
    (body : InsertTableBody) (ip : Option String) : TableRouteResult :=
  match resolveActor sess users with
  | none => ⟨401, tables, logs, none⟩
  | some actor =>
      if body.name ≠ "" then
        let table : DataTable :=
          { id := newId
            name := body.name
            description := body.description
            createdBy := some actor.id
            createdAt := now }
        let logs2 := auditLog auditFails
          { userId := some actor.id
            action := "CREATE_TABLE"
            endpoint := "/api/tables"
            method := "POST"
            metadata := [("tableId", table.id)]
            ipAddress := ip
            timestamp := now } logs
        ⟨201, tables ++ [table], logs2, some table⟩
      else ⟨400, tables, logs, none⟩

/-- The `DELETE /api/tables/:id` route: guarded by `isAuthenticated`
only (no `requireRole`); deletes the row with the given id (no
existence check), audits, and answers 204. -/
def deleteTableRoute (auditFails : Bool) (now : Nat) (sess : Session) (users : UserStore)
    (tables : List DataTable) (logs : AuditStore) (targetId : String) (ip : Option String) :
    TableRouteResult :=
  match resolveActor sess users with
  | none => ⟨401, tables, logs, none⟩
  | some actor =>
      let tables2 := tables.filter (fun t => t.id ≠ targetId)
      let logs2 := auditLog auditFails
        { userId := some actor.id
          action := "DELETE_TABLE"
          endpoint := "/api/tables/" ++ targetId
          method := "DELETE"
          metadata := [("tableId", targetId)]
          ipAddress := ip
          timestamp := now } logs
      ⟨204, tables2, logs2, none⟩

/-! ### Helper lemmas about the user store -/

theorem findUser_id (store : UserStore) (id : String) (u : User)
    (h : findUser store id = some u) : u.id = id := by
  unfold findUser at h
  have hp := List.find?_some h
  simpa using hp

theorem findUser_map_update (store : UserStore) (id : String) (tu u : User)
    (h : findUser store id = some tu) (hu : u.id = id) :
    findUser (store.map (fun x => if x.id == id then u else x)) id = some u := by
  induction store with
  | nil => simp [findUser] at h
  | cons x xs ih =>
      unfold findUser at h ⊢
      by_cases hx : x.id = id
      · simp [hx, hu]
      · simp only [List.map_cons, List.find?_cons] at h ⊢
        have hxb : (x.id == id) = false := by simp [hx]
        simp only [hxb, Bool.false_eq_true, if_false] at h ⊢
        exact ih h

/-! ### C1 -/

/-- C1: on `PATCH /api/users/:id/role` with an actor whose role is in
the allow-set {admin, super_admin}: assigning `super_admin` as a
non-`super_admin` actor yields 403 with the user store unchanged; when
the actor is `super_admin` or the target role is one of the other three
roles, the request succeeds and the target user's role is updated. -/
theorem c1_role_assignment_guard
    (auditFails : Bool) (now : Nat) (sess : Session) (users : UserStore)
    (logs : AuditStore) (targetId bodyRole : String) (ip : Option String)
    (actor : User) (hActor : resolveActor sess users = some actor)
    (hAllow : actor.role = Role.admin ∨ actor.role = Role.super_admin)
    (newRole : Role) (hParse : parseRole bodyRole = some newRole) :
    ((newRole = Role.super_admin ∧ actor.role ≠ Role.super_admin) →
      (patchUserRole auditFails now sess users logs targetId bodyRole ip).status = 403 ∧
      (patchUserRole auditFails now sess users logs targetId bodyRole ip).users = users) ∧
    ((actor.role = Role.super_admin ∨ newRole ≠ Role.super_admin) →
      ∀ tu, findUser users targetId = some tu →
        (patchUserRole auditFails now sess users logs targetId bodyRole ip).status = 200 ∧
        findUser (patchUserRole auditFails now sess users logs targetId bodyRole ip).users
            targetId = some { tu with role := newRole, updatedAt := now }) := by
  have hA : roleAllowed [Role.super_admin, Role.admin] actor.role = true := by
    rcases hAllow with h | h <;> (unfold roleAllowed; rw [h]; decide)
  constructor
  · intro hEsc
    simp only [patchUserRole, hActor, hA, if_true, hParse, if_pos hEsc]
    exact ⟨trivial, trivial⟩
  · intro hOk tu htu
    have hNeg : ¬(newRole = Role.super_admin ∧ actor.role ≠ Role.super_admin) := by
      rcases hOk with h | h
      · exact fun hc => hc.2 h
      · exact fun hc => h hc.1
    have htuId : tu.id = targetId := findUser_id users targetId tu htu
    simp only [patchUserRole, hActor, hA, if_true, hParse, if_neg hNeg,
      dbUpdateUserRole, htu]
    exact ⟨trivial, findUser_map_update users targetId tu _ htu htuId⟩

/-- Witness for C1 at a concrete store: an admin actor assigning
`super_admin` gets 403, the same actor assigning `manager` gets 200. -/
theorem c1_role_assignment_guard_witness :
    (patchUserRole false 5 ⟨some "a", none, none⟩
      [⟨"a", none, none, none, none, Role.admin, 0, 0⟩,
       ⟨"t", none, none, none, none, Role.viewer, 0, 0⟩] [] "t" "super_admin" none).status
        = 403 ∧
    (patchUserRole false 5 ⟨some "a", none, none⟩
      [⟨"a", none, none, none, none, Role.admin, 0, 0⟩,
       ⟨"t", none, none, none, none, Role.viewer, 0, 0⟩] [] "t" "manager" none).status
        = 200 := by
  constructor
  · exact ((c1_role_assignment_guard false 5 ⟨some "a", none, none⟩
      [⟨"a", none, none, none, none, Role.admin, 0, 0⟩,
       ⟨"t", none, none, none, none, Role.viewer, 0, 0⟩] [] "t" "super_admin" none
      ⟨"a", none, none, none, none, Role.admin, 0, 0⟩ (by decide) (Or.inl rfl)
      Role.super_admin (by decide)).1 (by decide)).1
  · exact ((c1_role_assignment_guard false 5 ⟨some "a", none, none⟩
      [⟨"a", none, none, none, none, Role.admin, 0, 0⟩,
       ⟨"t", none, none, none, none, Role.viewer, 0, 0⟩] [] "t" "manager" none
      ⟨"a", none, none, none, none, Role.admin, 0, 0⟩ (by decide) (Or.inl rfl)
      Role.manager (by decide)).2 (Or.inr (by decide))
      ⟨"t", none, none, none, none, Role.viewer, 0, 0⟩ (by decide)).1

/-! ### C9 -/

/-- C9: the escalation guard inspects only the role being assigned,
never the target's current role: an actor with role `admin` can set any
existing user's role — including a current `super_admin` — to any role
other than `super_admin`, and the request succeeds with the role
updated. -/
theorem c9_admin_can_demote_super_admin
    (auditFails : Bool) (now : Nat) (sess : Session) (users : UserStore)
    (logs : AuditStore) (targetId bodyRole : String) (ip : Option String)
    (actor : User) (hActor : resolveActor sess users = some actor)
    (hAdmin : actor.role = Role.admin)
    (newRole : Role) (hParse : parseRole bodyRole = some newRole)
    (hNotSuper : newRole ≠ Role.super_admin)
    (tu : User) (htu : findUser users targetId = some tu) :
    (patchUserRole auditFails now sess users logs targetId bodyRole ip).status = 200 ∧
    findUser (patchUserRole auditFails now sess users logs targetId bodyRole ip).users
        targetId = some { tu with role := newRole, updatedAt := now } := by
  have hA : roleAllowed [Role.super_admin, Role.admin] actor.role = true := by
    unfold roleAllowed; rw [hAdmin]; decide
  have hNeg : ¬(newRole = Role.super_admin ∧ actor.role ≠ Role.super_admin) :=
    fun hc => hNotSuper hc.1
  have htuId : tu.id = targetId := findUser_id users targetId tu htu
  simp only [patchUserRole, hActor, hA, if_true, hParse, if_neg hNeg,
    dbUpdateUserRole, htu]
  exact ⟨trivial, findUser_map_update users targetId tu _ htu htuId⟩

/-- Witness for C9: an admin demotes an existing `super_admin` to
`viewer` and gets 200 with the role updated. -/
theorem c9_admin_can_demote_super_admin_witness :
    (patchUserRole false 5 ⟨some "a", none, none⟩
      [⟨"a", none, none, none, none, Role.admin, 0, 0⟩,
       ⟨"s", none, none, none, none, Role.super_admin, 0, 0⟩] [] "s" "viewer" none).status
        = 200 ∧
    findUser (patchUserRole false 5 ⟨some "a", none, none⟩
      [⟨"a", none, none, none, none, Role.admin, 0, 0⟩,
       ⟨"s", none, none, none, none, Role.super_admin, 0, 0⟩] [] "s" "viewer" none).users
        "s" = some ⟨"s", none, none, none, none, Role.viewer, 0, 5⟩ :=
  c9_admin_can_demote_super_admin false 5 ⟨some "a", none, none⟩
    [⟨"a", none, none, none, none, Role.admin, 0, 0⟩,
     ⟨"s", none, none, none, none, Role.super_admin, 0, 0⟩] [] "s" "viewer" none
    ⟨"a", none, none, none, none, Role.admin, 0, 0⟩ (by decide) rfl
    Role.viewer (by decide) (by decide)
    ⟨"s", none, none, none, none, Role.super_admin, 0, 0⟩ (by decide)

/-! ### C7 -/

/-- C7 as stated is false: the route's catch-all answers 400, not 404,
when `updateUserRole` throws its "User not found" error. Concrete
counterexample: a `super_admin` actor updates the role of a missing
user id and receives 400. -/
theorem c7_counterexample :
    (patchUserRole false 5 ⟨some "s", none, none⟩
      [⟨"s", none, none, none, none, Role.super_admin, 0, 0⟩] [] "missing" "admin"
      none).status = 400 ∧
    (patchUserRole false 5 ⟨some "s", none, none⟩
      [⟨"s", none, none, none, none, Role.super_admin, 0, 0⟩] [] "missing" "admin"
      none).status ≠ 404 := by decide

/-- C7 amended: a role update on a missing user fails NotFound in the
storage layer ("User not found"), but the route surfaces it as HTTP 400
(not 404) through its catch-all, leaving the user store unchanged;
`newRole` is validated by `updateUserRoleSchema` to be exactly one of
the four recognized role strings. -/
theorem c7_missing_user_yields_400
    (auditFails : Bool) (now : Nat) (sess : Session) (users : UserStore)
    (logs : AuditStore) (targetId bodyRole : String) (ip : Option String)
    (actor : User) (hActor : resolveActor sess users = some actor)
    (hAllow : actor.role = Role.admin ∨ actor.role = Role.super_admin)
    (newRole : Role) (hParse : parseRole bodyRole = some newRole)
    (hNoEsc : actor.role = Role.super_admin ∨ newRole ≠ Role.super_admin)
    (hMissing : findUser users targetId = none) :
    (patchUserRole auditFails now sess users logs targetId bodyRole ip).status = 400 ∧
    (patchUserRole auditFails now sess users logs targetId bodyRole ip).users = users ∧
    (∀ s : String, (parseRole s).isSome ↔
      (s = "super_admin" ∨ s = "admin" ∨ s = "manager" ∨ s = "viewer")) := by
  have hA : roleAllowed [Role.super_admin, Role.admin] actor.role = true := by
    rcases hAllow with h | h <;> (unfold roleAllowed; rw [h]; decide)
  have hNeg : ¬(newRole = Role.super_admin ∧ actor.role ≠ Role.super_admin) := by
    rcases hNoEsc with h | h
    · exact fun hc => hc.2 h
    · exact fun hc => h hc.1
  refine ⟨?_, ?_, ?_⟩
  · simp only [patchUserRole, hActor, hA, if_true, hParse, if_neg hNeg,
      dbUpdateUserRole, hMissing]
  · simp only [patchUserRole, hActor, hA, if_true, hParse, if_neg hNeg,
      dbUpdateUserRole, hMissing]
  · intro s
    unfold parseRole
    split_ifs <;> simp_all

/-- Witness for the amended C7 at a concrete input. -/
theorem c7_missing_user_yields_400_witness :
    (patchUserRole false 5 ⟨some "s", none, none⟩
      [⟨"s", none, none, none, none, Role.super_admin, 0, 0⟩] [] "ghost" "viewer"
      none).status = 400 :=
  (c7_missing_user_yields_400 false 5 ⟨some "s", none, none⟩
    [⟨"s", none, none, none, none, Role.super_admin, 0, 0⟩] [] "ghost" "viewer" none
    ⟨"s", none, none, none, none, Role.super_admin, 0, 0⟩ (by decide) (Or.inr rfl)
    Role.viewer (by decide) (Or.inl rfl) (by decide)).1

/-! ### C10 -/

/-- C10: `POST /api/tables` and `DELETE /api/tables/:id` are guarded by
`isAuthenticated` alone — any authenticated user, of any role, creates
a table (201) and deletes a table (204); by contrast the inventory
mutation route carries an allow-set that rejects a `viewer` with 403. -/
theorem c10_table_routes_require_only_authentication
    (auditFails : Bool) (newId : String) (now : Nat) (sess : Session)
    (users : UserStore) (tables : List DataTable) (logs : AuditStore)
    (body : InsertTableBody) (ip : Option String) (targetId : String)
    (items : List InventoryItem) (history : List ProductHistory)
    (ibody : InsertInventoryItem)
    (actor : User) (hActor : resolveActor sess users = some actor)
    (hName : body.name ≠ "") :
    (postTable auditFails newId now sess users tables logs body ip).status = 201 ∧
    (deleteTableRoute auditFails now sess users tables logs targetId ip).status = 204 ∧
    (actor.role = Role.viewer →
      (postInventory auditFails newId now sess users items history logs ibody ip).status
        = 403) := by
  refine ⟨?_, ?_, ?_⟩
  · simp only [postTable, hActor, if_pos hName]
  · simp only [deleteTableRoute, hActor]
  · intro hv
    have hR : roleAllowed [Role.super_admin, Role.admin, Role.manager] actor.role
        = false := by
      unfold roleAllowed; rw [hv]; decide
    simp only [postInventory, hActor, hR, Bool.false_eq_true, if_false]

/-- Witness for C10: a viewer-role user creates and deletes a table and
is refused on the inventory route. -/
theorem c10_table_routes_require_only_authentication_witness :
    (postTable false "tbl1" 7 ⟨some "v", none, none⟩
      [⟨"v", none, none, none, none, Role.viewer, 0, 0⟩] [] [] ⟨"notes", none⟩
      none).status = 201 ∧
    (deleteTableRoute false 7 ⟨some "v", none, none⟩
      [⟨"v", none, none, none, none, Role.viewer, 0, 0⟩] [] [] "tbl1" none).status = 204 ∧
    (postInventory false "inv1" 7 ⟨some "v", none, none⟩
      [⟨"v", none, none, none, none, Role.viewer, 0, 0⟩] [] [] [] ⟨"w1", "Box", "SKU1", 3⟩
      none).status = 403 := by
  have h := c10_table_routes_require_only_authentication false "tbl1" 7
    ⟨some "v", none, none⟩ [⟨"v", none, none, none, none, Role.viewer, 0, 0⟩] [] []
    ⟨"notes", none⟩ none "tbl1" [] [] ⟨"w1", "Box", "SKU1", 3⟩
    ⟨"v", none, none, none, none, Role.viewer, 0, 0⟩ (by decide) (by decide)
  refine ⟨h.1, ?_, h.2.2 rfl⟩
  have h2 := c10_table_routes_require_only_authentication false "inv1" 7
    ⟨some "v", none, none⟩ [⟨"v", none, none, none, none, Role.viewer, 0, 0⟩] [] []
    ⟨"notes", none⟩ none "tbl1" [] [] ⟨"w1", "Box", "SKU1", 3⟩
    ⟨"v", none, none, none, none, Role.viewer, 0, 0⟩ (by decide) (by decide)
  exact h2.2.1

/-! ### C5 -/

/-- C5: a failing audit append never changes a mutating route's
response: `auditLog` swallows the error of `createAuditLog`, so for any
audit-sink outcome `POST /api/inventory` still answers 201 carrying the
created item, and the item and product-history stores are identical
whether or not the append failed. -/
theorem c5_audit_failure_does_not_change_response
    (newId : String) (now : Nat) (sess : Session) (users : UserStore)
    (items : List InventoryItem) (history : List ProductHistory) (logs : AuditStore)
    (body : InsertInventoryItem) (ip : Option String)
    (actor : User) (hActor : resolveActor sess users = some actor)
    (hAllow : actor.role = Role.super_admin ∨ actor.role = Role.admin ∨
      actor.role = Role.manager)
    (hBody : inventoryBodyValid body = true) :
    (∀ auditFails : Bool,
      (postInventory auditFails newId now sess users items history logs body ip).status
        = 201 ∧
      (postInventory auditFails newId now sess users items history logs body ip).body
        = some ⟨newId, body.warehouseId, body.name, body.sku, body.quantity, now, now⟩) ∧
    (postInventory true newId now sess users items history logs body ip).items
      = (postInventory false newId now sess users items history logs body ip).items ∧
    (postInventory true newId now sess users items history logs body ip).history
      = (postInventory false newId now sess users items history logs body ip).history ∧
    (∀ (entry : AuditLog) (logs2 : AuditStore), auditLog true entry logs2 = logs2) := by
  have hR : roleAllowed [Role.super_admin, Role.admin, Role.manager] actor.role
      = true := by
    rcases hAllow with h | h | h <;> (unfold roleAllowed; rw [h]; decide)
  refine ⟨?_, ?_, ?_, ?_⟩
  · intro auditFails
    simp only [postInventory, hActor, hR, if_true, hBody]
    exact ⟨trivial, trivial⟩
  · simp only [postInventory, hActor, hR, if_true, hBody]
  · simp only [postInventory, hActor, hR, if_true, hBody]
  · intro entry logs2
    simp [auditLog, createAuditLog]

/-- Witness for C5: with the audit sink throwing, a manager's inventory
creation still answers 201 with the created item. -/
theorem c5_audit_failure_does_not_change_response_witness :
    (postInventory true "inv1" 7 ⟨some "m", none, none⟩
      [⟨"m", none, none, none, none, Role.manager, 0, 0⟩] [] [] []
      ⟨"w1", "Box", "SKU1", 3⟩ none).status = 201 ∧
    (postInventory true "inv1" 7 ⟨some "m", none, none⟩
      [⟨"m", none, none, none, none, Role.manager, 0, 0⟩] [] [] []
      ⟨"w1", "Box", "SKU1", 3⟩ none).body = some ⟨"inv1", "w1", "Box", "SKU1", 3, 7, 7⟩ :=
  (c5_audit_failure_does_not_change_response "inv1" 7 ⟨some "m", none, none⟩
    [⟨"m", none, none, none, none, Role.manager, 0, 0⟩] [] [] []
    ⟨"w1", "Box", "SKU1", 3⟩ none
    ⟨"m", none, none, none, none, Role.manager, 0, 0⟩ (by decide)
    (Or.inr (Or.inr rfl)) (by decide)).1 true

/-! ### C4 -/

theorem dbUpsertUser_existing (now : Nat) (u : UpsertUser) (store : UserStore) (e : User)
    (h : findUser store u.id = some e) :
    (dbUpsertUser now u store).1 =
      ⟨e.id, u.email, u.firstName, u.lastName, u.profileImageUrl,
        e.role, e.createdAt, now⟩ ∧
    findUser (dbUpsertUser now u store).2 u.id = some (dbUpsertUser now u store).1 := by
  have hid : e.id = u.id := findUser_id store u.id e h
  constructor
  · simp only [dbUpsertUser, h]
  · simp only [dbUpsertUser, h]
    exact findUser_map_update store u.id e _ h hid

theorem memUpsertUser_existing (now : Nat) (u : UpsertUser) (store : UserStore) (e : User)
    (h : findUser store u.id = some e) :
    (memUpsertUser now u store).1 =
      ⟨u.id, u.email, u.firstName, u.lastName, u.profileImageUrl,
        e.role, e.createdAt, now⟩ ∧
    findUser (memUpsertUser now u store).2 u.id = some (memUpsertUser now u store).1 := by
  constructor
  · simp [memUpsertUser, h]
  · simp only [memUpsertUser, h]
    exact findUser_map_update store u.id e _ h rfl

theorem dbUpsert_foldl_preserves (u : UpsertUser) (seq : List (Nat × UpsertUser)) :
    ∀ (store : UserStore) (e : User),
      findUser store u.id = some e → (∀ p ∈ seq, (p.2).id = u.id) →
      ∃ r, findUser (seq.foldl (fun st p => (dbUpsertUser p.1 p.2 st).2) store) u.id
          = some r ∧ r.role = e.role ∧ r.createdAt = e.createdAt := by
  induction seq with
  | nil => exact fun store e h _ => ⟨e, h, rfl, rfl⟩
  | cons p rest ih =>
      intro store e h hid
      have hpid : (p.2).id = u.id := hid p (List.mem_cons_self p rest)
      have h2 : findUser store (p.2).id = some e := by rw [hpid]; exact h
      obtain ⟨heq, hfound⟩ := dbUpsertUser_existing p.1 p.2 store e h2
      have hfound2 : findUser (dbUpsertUser p.1 p.2 store).2 u.id
          = some (dbUpsertUser p.1 p.2 store).1 := by rw [← hpid]; exact hfound
      have hrole1 : (dbUpsertUser p.1 p.2 store).1.role = e.role := by rw [heq]
      have hcre1 : (dbUpsertUser p.1 p.2 store).1.createdAt = e.createdAt := by rw [heq]
      obtain ⟨r, hr, hrole, hcre⟩ := ih (dbUpsertUser p.1 p.2 store).2
        (dbUpsertUser p.1 p.2 store).1 hfound2
        (fun q hq => hid q (List.mem_cons_of_mem p hq))
      refine ⟨r, ?_, ?_, ?_⟩
      · simpa [List.foldl_cons] using hr
      · rw [hrole, hrole1]
      · rw [hcre, hcre1]

/-- C4: `upsertUser` on an existing subject changes only the four
profile fields and `updatedAt` and leaves `role` and `createdAt`
untouched, in both storage implementations; any sequence of repeated
upserts keyed on the same subject preserves `role` and `createdAt`; on
a fresh subject the created user has `role = viewer`. -/
theorem c4_upsert_profile_frame :
    (∀ (now : Nat) (u : UpsertUser) (store : UserStore) (e : User),
      findUser store u.id = some e →
        ((dbUpsertUser now u store).1.role = e.role ∧
         (dbUpsertUser now u store).1.createdAt = e.createdAt ∧
         (dbUpsertUser now u store).1.id = e.id ∧
         (dbUpsertUser now u store).1.email = u.email ∧
         (dbUpsertUser now u store).1.firstName = u.firstName ∧
         (dbUpsertUser now u store).1.lastName = u.lastName ∧
         (dbUpsertUser now u store).1.profileImageUrl = u.profileImageUrl ∧
         (dbUpsertUser now u store).1.updatedAt = now ∧
         findUser (dbUpsertUser now u store).2 u.id = some (dbUpsertUser now u store).1) ∧
        ((memUpsertUser now u store).1.role = e.role ∧
         (memUpsertUser now u store).1.createdAt = e.createdAt ∧
         (memUpsertUser now u store).1.updatedAt = now ∧
         findUser (memUpsertUser now u store).2 u.id
           = some (memUpsertUser now u store).1)) ∧
    (∀ (now : Nat) (u : UpsertUser) (store : UserStore),
      findUser store u.id = none →
        (dbUpsertUser now u store).1.role = Role.viewer ∧
        (memUpsertUser now u store).1.role = Role.viewer) ∧
    (∀ (u : UpsertUser) (store : UserStore) (e : User) (seq : List (Nat × UpsertUser)),
      findUser store u.id = some e → (∀ p ∈ seq, (p.2).id = u.id) →
      ∃ r, findUser (seq.foldl (fun st p => (dbUpsertUser p.1 p.2 st).2) store) u.id
          = some r ∧ r.role = e.role ∧ r.createdAt = e.createdAt) := by
  refine ⟨?_, ?_, ?_⟩
  · intro now u store e h
    obtain ⟨hdb, hdbf⟩ := dbUpsertUser_existing now u store e h
    obtain ⟨hmem, hmemf⟩ := memUpsertUser_existing now u store e h
    constructor
    · rw [hdb] at hdbf ⊢
      exact ⟨rfl, rfl, rfl, rfl, rfl, rfl, rfl, rfl, hdbf⟩
    · rw [hmem] at hmemf ⊢
      exact ⟨rfl, rfl, rfl, hmemf⟩
  · intro now u store h
    constructor
    · simp only [dbUpsertUser, h]
    · simp [memUpsertUser, h]
  · intro u store e seq h hid
    exact dbUpsert_foldl_preserves u seq store e h hid

/-- Witness for C4: a repeated profile refresh on an existing manager
keeps role manager and createdAt 3 while replacing the email, and a
fresh subject is created as viewer. -/
theorem c4_upsert_profile_frame_witness :
    (dbUpsertUser 5 ⟨"x", some "new", none, none, none⟩
      [⟨"x", some "old", none, none, none, Role.manager, 3, 3⟩]).1.role = Role.manager ∧
    (dbUpsertUser 5 ⟨"x", some "new", none, none, none⟩
      [⟨"x", some "old", none, none, none, Role.manager, 3, 3⟩]).1.createdAt = 3 ∧
    (memUpsertUser 5 ⟨"x", some "new", none, none, none⟩
      [⟨"x", some "old", none, none, none, Role.manager, 3, 3⟩]).1.role = Role.manager ∧
    (dbUpsertUser 5 ⟨"y", none, none, none, none⟩ []).1.role = Role.viewer := by
  have h1 := (c4_upsert_profile_frame.1 5 ⟨"x", some "new", none, none, none⟩
    [⟨"x", some "old", none, none, none, Role.manager, 3, 3⟩]
    ⟨"x", some "old", none, none, none, Role.manager, 3, 3⟩ (by decide))
  have h2 := (c4_upsert_profile_frame.2.1 5 ⟨"y", none, none, none, none⟩ [] (by decide))
  exact ⟨h1.1.1, h1.1.2.1, h1.2.1, h2.1⟩

/-! ### Callback claims -/

theorem callbackHandler_no_pending (env : IdpEnv) (now : Nat) (sess : Session)
    (store : UserStore) (q : CallbackQuery)
    (hDisc : env.discovery = Except.ok ())
    (hcond : (strTruthy sess.codeVerifier && strTruthy sess.state) = false) :
    callbackHandler env now sess store q = ⟨400, sess, store, false⟩ := by
  simp only [callbackHandler, hDisc, hcond, Bool.false_eq_true, if_false]

/-- C8: a callback on a session with no pending-login record answers
400, leaves the session and user store unchanged, and never invokes
the token exchange. -/
theorem c8_callback_without_pending_login (env : IdpEnv) (now : Nat) (sess : Session)
    (store : UserStore) (q : CallbackQuery)
    (hDisc : env.discovery = Except.ok ())
    (hNo : sess.codeVerifier = none ∨ sess.state = none) :
    (callbackHandler env now sess store q).status = 400 ∧
    (callbackHandler env now sess store q).sess = sess ∧
    (callbackHandler env now sess store q).users = store ∧
    (callbackHandler env now sess store q).exchangeAttempted = false := by
  have hcond : (strTruthy sess.codeVerifier && strTruthy sess.state) = false := by
    rcases hNo with h | h <;> simp [h, strTruthy]
  rw [callbackHandler_no_pending env now sess store q hDisc hcond]
  exact ⟨rfl, rfl, rfl, rfl⟩

/-- Witness for C8: a session with a state but no code verifier gets
400 and stays unchanged. -/
theorem c8_callback_without_pending_login_witness :
    (callbackHandler ⟨Except.ok (), fun _ _ => Except.error (), fun _ => Except.error ()⟩
      9 ⟨none, none, some "st"⟩ [] ⟨"code", "st"⟩).status = 400 ∧
    (callbackHandler ⟨Except.ok (), fun _ _ => Except.error (), fun _ => Except.error ()⟩
      9 ⟨none, none, some "st"⟩ [] ⟨"code", "st"⟩).sess = ⟨none, none, some "st"⟩ ∧
    (callbackHandler ⟨Except.ok (), fun _ _ => Except.error (), fun _ => Except.error ()⟩
      9 ⟨none, none, some "st"⟩ [] ⟨"code", "st"⟩).users = [] ∧
    (callbackHandler ⟨Except.ok (), fun _ _ => Except.error (), fun _ => Except.error ()⟩
      9 ⟨none, none, some "st"⟩ [] ⟨"code", "st"⟩).exchangeAttempted = false :=
  c8_callback_without_pending_login
    ⟨Except.ok (), fun _ _ => Except.error (), fun _ => Except.error ()⟩
    9 ⟨none, none, some "st"⟩ [] ⟨"code", "st"⟩ rfl (Or.inl rfl)

/-- C2: when the token exchange fails — in particular on a `state`
mismatch — or the claims fetch fails, the callback answers 500 and the
session and user store are unchanged: no userId is set, no user is
created or updated. -/
theorem c2_callback_failure_preserves_session (env : IdpEnv) (now : Nat) (sess : Session)
    (store : UserStore) (q : CallbackQuery) (cv st : String)
    (hDisc : env.discovery = Except.ok ())
    (hcv : sess.codeVerifier = some cv) (hcvne : cv ≠ "")
    (hst : sess.state = some st) (hstne : st ≠ "")
    (hFail : q.qstate ≠ st ∨ env.tokenEndpoint q.code cv = Except.error () ∨
      (∃ t, env.tokenEndpoint q.code cv = Except.ok t ∧
        env.userinfoEndpoint t = Except.error ())) :
    (callbackHandler env now sess store q).status = 500 ∧
    (callbackHandler env now sess store q).sess = sess ∧
    (callbackHandler env now sess store q).users = store := by
  have hcond : (strTruthy sess.codeVerifier && strTruthy sess.state) = true := by
    simp [strTruthy, hcv, hst, hcvne, hstne]
  have hgetcv : sess.codeVerifier.getD "" = cv := by rw [hcv]; rfl
  have hgetst : sess.state.getD "" = st := by rw [hst]; rfl
  simp only [callbackHandler, hDisc, hcond, if_true, hgetcv, hgetst,
    authorizationCodeGrant]
  by_cases hq : q.qstate = st
  · rw [if_pos hq]
    rcases hFail with h | h | h
    · exact absurd hq h
    · rw [h]; exact ⟨by trivial, by trivial, by trivial⟩
    · obtain ⟨t, ht, hui⟩ := h
      rw [ht]
      simp only [ht, hui]
      exact ⟨by trivial, by trivial, by trivial⟩
  · rw [if_neg hq]
    exact ⟨by trivial, by trivial, by trivial⟩

/-- Witness for C2: a callback whose `state` query parameter does not
match the stored state answers 500 with session and store unchanged. -/
theorem c2_callback_failure_preserves_session_witness :
    (callbackHandler ⟨Except.ok (), fun _ _ => Except.error (), fun _ => Except.error ()⟩
      9 ⟨none, some "ver", some "st"⟩ [] ⟨"code", "WRONG"⟩).status = 500 ∧
    (callbackHandler ⟨Except.ok (), fun _ _ => Except.error (), fun _ => Except.error ()⟩
      9 ⟨none, some "ver", some "st"⟩ [] ⟨"code", "WRONG"⟩).sess
        = ⟨none, some "ver", some "st"⟩ ∧
    (callbackHandler ⟨Except.ok (), fun _ _ => Except.error (), fun _ => Except.error ()⟩
      9 ⟨none, some "ver", some "st"⟩ [] ⟨"code", "WRONG"⟩).users = [] :=
  c2_callback_failure_preserves_session
    ⟨Except.ok (), fun _ _ => Except.error (), fun _ => Except.error ()⟩
    9 ⟨none, some "ver", some "st"⟩ [] ⟨"code", "WRONG"⟩ "ver" "st"
    rfl rfl (by decide) rfl (by decide) (Or.inl (by decide))

/-- C3: a successful callback sets the session's userId to the upserted
user's id and clears both pending-login fields, and a second callback
on the resulting session fails the pending-login precondition with 400
and never reaches the token exchange. -/
theorem c3_callback_success_single_use (env : IdpEnv) (now : Nat) (sess : Session)
    (store : UserStore) (q : CallbackQuery) (cv st : String) (t : Tokens)
    (ui : UserClaims)
    (hDisc : env.discovery = Except.ok ())
    (hcv : sess.codeVerifier = some cv) (hcvne : cv ≠ "")
    (hst : sess.state = some st) (hstne : st ≠ "")
    (hq : q.qstate = st)
    (hTok : env.tokenEndpoint q.code cv = Except.ok t)
    (hUi : env.userinfoEndpoint t = Except.ok ui) :
    (callbackHandler env now sess store q).status = 302 ∧
    (callbackHandler env now sess store q).sess =
      ⟨some (dbUpsertUser now (claimsProfile ui) store).1.id, none, none⟩ ∧
    (callbackHandler env now sess store q).users
      = (dbUpsertUser now (claimsProfile ui) store).2 ∧
    (∀ (env2 : IdpEnv) (now2 : Nat) (store2 : UserStore) (q2 : CallbackQuery),
      env2.discovery = Except.ok () →
      (callbackHandler env2 now2 (callbackHandler env now sess store q).sess store2
        q2).status = 400 ∧
      (callbackHandler env2 now2 (callbackHandler env now sess store q).sess store2
        q2).exchangeAttempted = false) := by
  have hcond : (strTruthy sess.codeVerifier && strTruthy sess.state) = true := by
    simp [strTruthy, hcv, hst, hcvne, hstne]
  have hgetcv : sess.codeVerifier.getD "" = cv := by rw [hcv]; rfl
  have hgetst : sess.state.getD "" = st := by rw [hst]; rfl
  have hres : callbackHandler env now sess store q =
      ⟨302, ⟨some (dbUpsertUser now (claimsProfile ui) store).1.id, none, none⟩,
        (dbUpsertUser now (claimsProfile ui) store).2, true⟩ := by
    simp only [callbackHandler, hDisc, hcond, if_true, hgetcv, hgetst,
      authorizationCodeGrant, if_pos hq, hTok, hUi]
  refine ⟨by rw [hres], by rw [hres], by rw [hres], ?_⟩
  intro env2 now2 store2 q2 hDisc2
  rw [hres]
  rw [callbackHandler_no_pending env2 now2
    ⟨some (dbUpsertUser now (claimsProfile ui) store).1.id, none, none⟩ store2 q2
    hDisc2 rfl]
  exact ⟨rfl, rfl⟩

/-- Witness for C3: a successful concrete callback redirects with 302,
stores the subject as the session user, clears the pending fields, and
a repeated callback on the same session gets 400. -/
theorem c3_callback_success_single_use_witness :
    (callbackHandler ⟨Except.ok (), fun _ _ => Except.ok ⟨"tok", "Bearer"⟩,
        fun _ => Except.ok ⟨"sub1", none, none, none, none⟩⟩
      9 ⟨none, some "ver", some "st"⟩ [] ⟨"code", "st"⟩).status = 302 ∧
    (callbackHandler ⟨Except.ok (), fun _ _ => Except.ok ⟨"tok", "Bearer"⟩,
        fun _ => Except.ok ⟨"sub1", none, none, none, none⟩⟩
      9 ⟨none, some "ver", some "st"⟩ [] ⟨"code", "st"⟩).sess
        = ⟨some (dbUpsertUser 9 (claimsProfile ⟨"sub1", none, none, none, none⟩) []).1.id,
            none, none⟩ ∧
    (callbackHandler ⟨Except.ok (), fun _ _ => Except.ok ⟨"tok", "Bearer"⟩,
        fun _ => Except.ok ⟨"sub1", none, none, none, none⟩⟩
      9 (callbackHandler ⟨Except.ok (), fun _ _ => Except.ok ⟨"tok", "Bearer"⟩,
          fun _ => Except.ok ⟨"sub1", none, none, none, none⟩⟩
        9 ⟨none, some "ver", some "st"⟩ [] ⟨"code", "st"⟩).sess [] ⟨"code", "st"⟩).status
        = 400 := by
  have h := c3_callback_success_single_use
    ⟨Except.ok (), fun _ _ => Except.ok ⟨"tok", "Bearer"⟩,
      fun _ => Except.ok ⟨"sub1", none, none, none, none⟩⟩
    9 ⟨none, some "ver", some "st"⟩ [] ⟨"code", "st"⟩ "ver" "st" ⟨"tok", "Bearer"⟩
    ⟨"sub1", none, none, none, none⟩ rfl rfl (by decide) rfl (by decide) rfl rfl rfl
  exact ⟨h.1, h.2.1,
    (h.2.2.2 ⟨Except.ok (), fun _ _ => Except.ok ⟨"tok", "Bearer"⟩,
      fun _ => Except.ok ⟨"sub1", none, none, none, none⟩⟩ 9 [] ⟨"code", "st"⟩ rfl).1⟩

/-! ### C6 -/

/-- C6 fails on the code: with three audit entries of timestamps 1, 2,
3 and limit 2, the specified `recentEntries` yields the two newest,
newest first; `DatabaseStorage.getAuditLogs` (ascending `ORDER BY`,
no `desc()`) returns the two oldest, oldest first, and
`MemStorage.getAuditLogs` (`slice(-limit)`) returns the two newest but
oldest first — both differ from the specified result. -/
theorem c6_getAuditLogs_divergence :
    dbGetAuditLogs 2
      [⟨none, "A", "/a", "POST", [], none, 1⟩, ⟨none, "B", "/b", "POST", [], none, 2⟩,
       ⟨none, "C", "/c", "POST", [], none, 3⟩] =
      [⟨none, "A", "/a", "POST", [], none, 1⟩, ⟨none, "B", "/b", "POST", [], none, 2⟩] ∧
    memGetAuditLogs 2
      [⟨none, "A", "/a", "POST", [], none, 1⟩, ⟨none, "B", "/b", "POST", [], none, 2⟩,
       ⟨none, "C", "/c", "POST", [], none, 3⟩] =
      [⟨none, "B", "/b", "POST", [], none, 2⟩, ⟨none, "C", "/c", "POST", [], none, 3⟩] ∧
    recentEntriesSpec 2
      [⟨none, "A", "/a", "POST", [], none, 1⟩, ⟨none, "B", "/b", "POST", [], none, 2⟩,
       ⟨none, "C", "/c", "POST", [], none, 3⟩] =
      [⟨none, "C", "/c", "POST", [], none, 3⟩, ⟨none, "B", "/b", "POST", [], none, 2⟩] ∧
    dbGetAuditLogs 2
      [⟨none, "A", "/a", "POST", [], none, 1⟩, ⟨none, "B", "/b", "POST", [], none, 2⟩,
       ⟨none, "C", "/c", "POST", [], none, 3⟩] ≠
    recentEntriesSpec 2
      [⟨none, "A", "/a", "POST", [], none, 1⟩, ⟨none, "B", "/b", "POST", [], none, 2⟩,
       ⟨none, "C", "/c", "POST", [], none, 3⟩] ∧
    memGetAuditLogs 2
      [⟨none, "A", "/a", "POST", [], none, 1⟩, ⟨none, "B", "/b", "POST", [], none, 2⟩,
       ⟨none, "C", "/c", "POST", [], none, 3⟩] ≠
    recentEntriesSpec 2
      [⟨none, "A", "/a", "POST", [], none, 1⟩, ⟨none, "B", "/b", "POST", [], none, 2⟩,
       ⟨none, "C", "/c", "POST", [], none, 3⟩] := by decide

end WarehouseApp
